import Mathlib

/-!
Verification of the Lucky-Lotto contracts: a shallow embedding of the three
lottery programs (instant_lotto.rs, super_lotto.rs, three_lotto.rs) together
with theorems about the draw state machine, the outcome mapping and the prize
ledger.

Modelling conventions:
* u64 / u32 / u8 values are Nat; where the source performs checked arithmetic
  the embedding returns Option Nat, and where the source performs an unchecked
  u64 addition the embedding reduces modulo 2 ^ 64 (release-build wrapping).
* i64 timestamps are Int; Rust integer division and remainder truncate toward
  zero, so they are embedded with Int.tdiv and Int.tmod.
* A 32-byte digest is embedded as the function from byte index to byte value;
  the programs only read indices 0..23 (instant), 0..6 (weekly) and 0..2 (3D).
* Fallible instructions return Except: on-chain an error aborts the whole
  transaction, so an error result leaves the caller with the unchanged state.
* Token transfers, signature checks and event emission are external
  collaborators of the core and are modelled as succeeding; account mints are
  passed as explicit arguments where the source compares them.
-/

/-- u64 checked_add: the sum when it fits in 64 bits, otherwise none. -/
def checkedAdd (a b : Nat) : Option Nat :=
  if a + b < 2 ^ 64 then some (a + b) else none

/-- u64 checked_sub: the difference when it does not underflow, otherwise none. -/
def checkedSub (a b : Nat) : Option Nat :=
  if b ≤ a then some (a - b) else none

/-- u64 checked_mul: the product when it fits in 64 bits, otherwise none. -/
def checkedMul (a b : Nat) : Option Nat :=
  if a * b < 2 ^ 64 then some (a * b) else none

/-- u64 checked_div: floor division, none only for a zero divisor. -/
def checkedDiv (a b : Nat) : Option Nat :=
  if b = 0 then none else some (a / b)

/-- The all-zero 32-byte digest, used as a concrete digest input. -/
def zeroDigest : Nat → Nat := fun _ => 0

/-- A digest whose second 8-byte slice reads 4660 (byte 8 is 52, byte 9 is 18)
while the first reads 0: under the default weight table the first two tiers
differ, so an instant-variant play with this digest loses. -/
def loseDigest : Nat → Nat := fun n => if n = 8 then 52 else if n = 9 then 18 else 0

namespace InstantLotto

/-- Error codes of instant_lotto.rs (enum LotteryError). -/
inductive LotteryError
  | LotteryLocked
  | BetTooSmall
  | InvalidSignature
  | ArithmeticOverflow
  | SignatureExpired
  | InvalidAuthority
  | InsufficientPrize
deriving DecidableEq, Repr

/-- The Lottery account of instant_lotto.rs, restricted to the fields the core
logic reads or writes (authority and token_mint only gate signatures, which are
external). -/
structure Lottery where
  min_bet : Nat
  locked : Bool
  total_weight : Nat
  weight_ranges : List Nat
  multipliers : List Nat
  pool_amount : Nat
  play_times : Nat
  prize_amount : Nat
deriving DecidableEq, Repr

/-- Embeds instruction initialize of instant_lotto.rs: the freshly created
instance with the fixed weight table. -/
def initLottery (min_bet : Nat) : Lottery :=
  { min_bet := min_bet
    locked := false
    total_weight := 10000
    weight_ranges := [4660, 7627, 8858, 9578, 10000]
    multipliers := [2, 5, 10, 50, 100]
    pool_amount := 0
    play_times := 0
    prize_amount := 0 }

/-- The loop of get_number: scan weight_ranges from index i, returning the
1-based index of the first boundary strictly above random. -/
def getNumberFrom (random : Nat) (i : Nat) : List Nat → Nat
  | [] => 5
  | r :: rest => if random < r then i + 1 else getNumberFrom random (i + 1) rest

/-- Embeds get_number of instant_lotto.rs: first boundary the value is strictly
below wins; the fallback for values at or above every boundary is 5. -/
def get_number (random : Nat) (weight_ranges : List Nat) : Nat :=
  getNumberFrom random 0 weight_ranges

/-- The u64 little-endian read of digest bytes 8*i .. 8*i+7, as performed by
u64::from_le_bytes on the i-th 8-byte slice of the hash. -/
def u64SliceLE (digest : Nat → Nat) (i : Nat) : Nat :=
  digest (8 * i) + 256 * digest (8 * i + 1) + 256 ^ 2 * digest (8 * i + 2)
    + 256 ^ 3 * digest (8 * i + 3) + 256 ^ 4 * digest (8 * i + 4)
    + 256 ^ 5 * digest (8 * i + 5) + 256 ^ 6 * digest (8 * i + 6)
    + 256 ^ 7 * digest (8 * i + 7)

/-- The i-th tier number drawn by play: the i-th 8-byte slice, reduced modulo
total_weight and mapped through the weight table. -/
def tierNumber (s : Lottery) (digest : Nat → Nat) (i : Nat) : Nat :=
  get_number (u64SliceLE digest i % s.total_weight) s.weight_ranges

/-- The three tier numbers of a play, filled left to right. -/
def playNumbers (s : Lottery) (digest : Nat → Nat) : List Nat :=
  [tierNumber s digest 0, tierNumber s digest 1, tierNumber s digest 2]

/-- Embeds the win determination of play: numbers.windows(2) all equal, which
for the 3-array is adjacent equality, then the table lookup at numbers[0] - 1;
a non-winning play has multiplier 0. -/
def win_multiplier (s : Lottery) (digest : Nat → Nat) : Nat :=
  if tierNumber s digest 0 = tierNumber s digest 1
      ∧ tierNumber s digest 1 = tierNumber s digest 2 then
    s.multipliers.getD (tierNumber s digest 0 - 1) 0
  else 0

/-- Embeds the prize computation of play: amount.checked_mul(multiplier)
.and_then(checked_mul 101).and_then(checked_div 100). -/
def total_prize (amount mult : Nat) : Option Nat :=
  match checkedMul amount mult with
  | none => none
  | some x =>
    match checkedMul x 101 with
    | none => none
    | some y => checkedDiv y 100

/-- Embeds instruction play of instant_lotto.rs. The digest argument stands for
the sha256 output over the concatenated entropy sources; the incoming token
transfer is external and modelled as succeeding. -/
def play (s : Lottery) (amount : Nat) (digest : Nat → Nat) :
    Except LotteryError Lottery :=
  if s.locked then .error .LotteryLocked
  else if amount < s.min_bet then .error .BetTooSmall
  else
    match checkedAdd s.pool_amount amount with
    | none => .error .ArithmeticOverflow
    | some pool =>
      match checkedAdd s.play_times 1 with
      | none => .error .ArithmeticOverflow
      | some pt =>
        let m := win_multiplier s digest
        if 0 < m then
          match total_prize amount m with
          | none => .error .ArithmeticOverflow
          | some tp =>
            match checkedAdd s.prize_amount tp with
            | none => .error .ArithmeticOverflow
            | some pz =>
              .ok { s with pool_amount := pool, play_times := pt, prize_amount := pz }
        else
          .ok { s with pool_amount := pool, play_times := pt }

/-- Embeds instruction claim_prize of instant_lotto.rs; the two outgoing token
transfers are external and modelled as succeeding. -/
def claim_prize (s : Lottery) (prize_amount fee_amount : Nat) (now timestamp : Int) :
    Except LotteryError Lottery :=
  if ¬ 0 < s.prize_amount then .error .InsufficientPrize
  else if ¬ now - timestamp < 300 then .error .SignatureExpired
  else
    match checkedAdd prize_amount fee_amount with
    | none => .error .ArithmeticOverflow
    | some total_amount =>
      if ¬ total_amount ≤ s.prize_amount then .error .InsufficientPrize
      else
        match checkedSub s.pool_amount prize_amount with
        | none => .error .ArithmeticOverflow
        | some pool1 =>
          match checkedSub pool1 fee_amount with
          | none => .error .ArithmeticOverflow
          | some pool2 =>
            match checkedSub s.prize_amount prize_amount with
            | none => .error .ArithmeticOverflow
            | some pz1 =>
              match checkedSub pz1 fee_amount with
              | none => .error .ArithmeticOverflow
              | some pz2 =>
                .ok { s with pool_amount := pool2, prize_amount := pz2 }

/-- Embeds instruction set_locked of instant_lotto.rs: four independent
optional field overwrites, with no consistency check between total_weight and
weight_ranges. -/
def set_locked (s : Lottery) (locked : Option Bool) (total_weight : Option Nat)
    (weight_ranges : Option (List Nat)) (multipliers : Option (List Nat)) : Lottery :=
  let s1 := match locked with | some b => { s with locked := b } | none => s
  let s2 := match total_weight with | some w => { s1 with total_weight := w } | none => s1
  let s3 := match weight_ranges with | some r => { s2 with weight_ranges := r } | none => s2
  match multipliers with | some m => { s3 with multipliers := m } | none => s3

/-- The ledger invariant claimed by the spec for the instant variant. -/
def PrizeInvariant (s : Lottery) : Prop := s.prize_amount ≤ s.pool_amount

end InstantLotto

namespace SuperLotto

/-- LOCK_DURATION of super_lotto.rs: 10 minutes. -/
def LOCK_DURATION : Int := 600

/-- DRAW_START_TIME of super_lotto.rs: UTC midnight. -/
def DRAW_START_TIME : Int := 0

/-- DRAW_END_TIME of super_lotto.rs: 600 seconds past UTC midnight. -/
def DRAW_END_TIME : Int := 600

/-- Error codes of super_lotto.rs (enum CustomError). -/
inductive CustomError
  | LotteryLocked
  | InsufficientAmount
  | InvalidTicketNumbers
  | InvalidDrawTime
  | TransferWindowClosed
  | InsufficientBalance
  | InvalidTokenMint
  | DrawTooEarly
  | AlreadyDrawn
  | PrizeUpdateWindowClosed
  | InsufficientPrizeAmount
  | ArithmeticError
  | InvalidPrizeAmount
  | InvalidTransferCount
deriving DecidableEq, Repr

/-- The LotteryState account of super_lotto.rs, restricted to the fields the
core logic reads or writes; Pubkeys are embedded as Nat identifiers. -/
structure LotteryState where
  token_mint : Nat
  last_draw_time : Int
  is_locked : Bool
  min_purchase_amount : Nat
  last_draw_numbers : List Nat
  last_prize_amount : Nat
deriving DecidableEq, Repr

/-- A TransferInfo entry of super_lotto.rs. -/
structure TransferInfo where
  recipient : Nat
  amount : Nat
deriving DecidableEq, Repr

/-- Embeds instruction initialize of super_lotto.rs. -/
def initState (min_purchase_amount : Nat) (token_mint : Nat) : LotteryState :=
  { token_mint := token_mint
    last_draw_time := 0
    is_locked := false
    min_purchase_amount := min_purchase_amount
    last_draw_numbers := [0, 0, 0, 0, 0, 0, 0]
    last_prize_amount := 0 }

/-- Embeds validate_ticket_numbers of super_lotto.rs: 6 red numbers in [1,33]
added to a hash set (so pairwise distinct), then the blue number in [1,16]. -/
def validate_ticket_numbers (numbers : List Nat) : Bool :=
  (numbers.take 6).all (fun n => 1 ≤ n && n ≤ 33)
    && decide (numbers.take 6).Nodup
    && (1 ≤ numbers.getD 6 0 && numbers.getD 6 0 ≤ 16)

/-- Embeds instruction buy_ticket of super_lotto.rs: mint check, then the
auto-unlock branch (strict comparison with LOCK_DURATION), then minimum amount
and ticket validation; the incoming token transfer is external and modelled as
succeeding. -/
def buy_ticket (s : LotteryState) (now : Int) (numbers : List Nat) (amount : Nat)
    (lottery_token_mint buyer_token_mint : Nat) : Except CustomError LotteryState :=
  if ¬ (lottery_token_mint = s.token_mint ∧ buyer_token_mint = s.token_mint) then
    .error .InvalidTokenMint
  else
    match (if s.is_locked then
            if now - s.last_draw_time > LOCK_DURATION then
              some { s with is_locked := false }
            else none
          else some s) with
    | none => .error .LotteryLocked
    | some s1 =>
      if amount < s1.min_purchase_amount then .error .InsufficientAmount
      else if ¬ validate_ticket_numbers numbers then .error .InvalidTicketNumbers
      else .ok s1

/-- The elapsed seconds since the start of the current day, as computed by
draw: current - (current / 86400) * 86400 with Rust truncating division. -/
def seconds_from_day_start (now : Int) : Int :=
  now - now.tdiv 86400 * 86400

/-- One step of the collision loop of convert_random_to_numbers:
val = (val % 33) + 1, the increment that wraps 33 back to 1. -/
def step33 (v : Nat) : Nat := v % 33 + 1

/-- The while loop of convert_random_to_numbers, with explicit fuel: advance by
step33 until the value is not among the already assigned ones. Fuel 33 is
enough to reach every value of [1,33], as proved below, so the fuelled function
agrees with the source loop whenever fewer than 33 values are taken. -/
def findFree : Nat → List Nat → Nat → Nat
  | 0, _, v => v
  | fuel + 1, used, v => if v ∈ used then findFree fuel used (step33 v) else v

/-- The first i red numbers of convert_random_to_numbers, filled strictly left
to right: slot i starts from digest byte i reduced modulo 33 and shifted to
1-based, then steps past the previously assigned slots. -/
def redNumbers (digest : Nat → Nat) : Nat → List Nat
  | 0 => []
  | i + 1 =>
    let prev := redNumbers digest i
    prev ++ [findFree 33 prev (digest i % 33 + 1)]

/-- Embeds convert_random_to_numbers of super_lotto.rs: 6 red numbers then the
blue number digest[6] % 16 + 1. -/
def convert_random_to_numbers (digest : Nat → Nat) : List Nat :=
  redNumbers digest 6 ++ [digest 6 % 16 + 1]

/-- Embeds instruction draw of super_lotto.rs; the digest argument stands for
the generate_vrf_random_number output. -/
def draw (s : LotteryState) (now : Int) (digest : Nat → Nat) :
    Except CustomError LotteryState :=
  if ¬ (DRAW_START_TIME ≤ seconds_from_day_start now
      ∧ seconds_from_day_start now ≤ DRAW_END_TIME) then
    .error .InvalidDrawTime
  else if s.is_locked then .error .AlreadyDrawn
  else
    .ok { s with last_draw_time := now, is_locked := true,
                 last_draw_numbers := convert_random_to_numbers digest }

/-- Embeds instruction update_prize_amount of super_lotto.rs. The source adds
with an unchecked u64 +=, embedded as wrapping modulo 2 ^ 64 (release-build
semantics); note the contrast with the checked arithmetic used elsewhere. -/
def update_prize_amount (s : LotteryState) (now : Int) (prize_amount : Nat) :
    Except CustomError LotteryState :=
  if ¬ (s.is_locked ∧ now - s.last_draw_time ≤ LOCK_DURATION) then
    .error .PrizeUpdateWindowClosed
  else if ¬ 0 < prize_amount then .error .InvalidPrizeAmount
  else .ok { s with last_prize_amount := (s.last_prize_amount + prize_amount) % 2 ^ 64 }

/-- Embeds instruction transfer_token of super_lotto.rs. The loop performs one
external token transfer per entry, erroring with InvalidTokenMint when the
remaining accounts run short (on-chain any error reverts the transaction, so
the embedding is atomic); the source never compares total_amount with the sum
of the entry amounts. The second component of a successful result is the list
of executed transfers. -/
def transfer_token (s : LotteryState) (transfers : List TransferInfo)
    (remaining_accounts : Nat) (total_amount : Nat) :
    Except CustomError (LotteryState × List TransferInfo) :=
  if ¬ 0 < total_amount then .error .InsufficientPrizeAmount
  else if ¬ total_amount ≤ s.last_prize_amount then .error .InsufficientPrizeAmount
  else if remaining_accounts < transfers.length then .error .InvalidTokenMint
  else
    match checkedSub s.last_prize_amount total_amount with
    | none => .error .ArithmeticError
    | some r => .ok ({ s with last_prize_amount := r }, transfers)

end SuperLotto

namespace ThreeLotto

/-- SECONDS_PER_MINUTE of three_lotto.rs. -/
def SECONDS_PER_MINUTE : Int := 60

/-- MINUTES_PER_HOUR of three_lotto.rs. -/
def MINUTES_PER_HOUR : Int := 60

/-- DRAW_WINDOW_MINUTES of three_lotto.rs. -/
def DRAW_WINDOW_MINUTES : Int := 5

/-- MIN_DRAW_INTERVAL of three_lotto.rs: 55 minutes. -/
def MIN_DRAW_INTERVAL : Int := 55 * SECONDS_PER_MINUTE

/-- LOCK_DURATION of three_lotto.rs: 5 minutes. -/
def LOCK_DURATION : Int := 5 * SECONDS_PER_MINUTE

/-- NUMBERS_COUNT of three_lotto.rs. -/
def NUMBERS_COUNT : Nat := 3

/-- MAX_NUMBER of three_lotto.rs. -/
def MAX_NUMBER : Nat := 33

/-- MIN_NUMBER of three_lotto.rs. -/
def MIN_NUMBER : Nat := 1

/-- Error codes of three_lotto.rs (enum LotteryError). -/
inductive LotteryError3
  | Locked
  | InsufficientAmount
  | InvalidTicketNumbers
  | InvalidDrawTime
  | InsufficientBalance
  | InvalidTokenMint
  | DrawTooEarly
  | AlreadyDrawn
  | PrizeUpdateWindowClosed
  | InsufficientPrizeAmount
  | ArithmeticError
  | InvalidPrizeAmount
  | DrawWindowActive
deriving DecidableEq, Repr

/-- The LotteryState account of three_lotto.rs, restricted to the fields the
core logic reads or writes; Pubkeys are embedded as Nat identifiers. -/
structure LotteryState where
  token_mint : Nat
  last_draw_time : Int
  is_locked : Bool
  min_purchase_amount : Nat
  last_draw_numbers : List Nat
  last_prize_amount : Nat
deriving DecidableEq, Repr

/-- A TransferInfo entry of three_lotto.rs. -/
structure TransferInfo where
  recipient : Nat
  amount : Nat
deriving DecidableEq, Repr

/-- Embeds instruction initialize of three_lotto.rs. -/
def initState3 (min_purchase_amount : Nat) (token_mint : Nat) : LotteryState :=
  { token_mint := token_mint
    last_draw_time := 0
    is_locked := false
    min_purchase_amount := min_purchase_amount
    last_draw_numbers := [0, 0, 0]
    last_prize_amount := 0 }

/-- Embeds LotteryState::is_in_draw_window of three_lotto.rs:
(current_time / 60) % 60 <= 5 with Rust truncating division and remainder. -/
def LotteryState.is_in_draw_window (_s : LotteryState) (current_time : Int) : Bool :=
  decide ((current_time.tdiv SECONDS_PER_MINUTE).tmod MINUTES_PER_HOUR ≤ DRAW_WINDOW_MINUTES)

/-- Embeds LotteryState::can_draw of three_lotto.rs. -/
def LotteryState.can_draw (s : LotteryState) (current_time : Int) : Bool :=
  decide (MIN_DRAW_INTERVAL ≤ current_time - s.last_draw_time) && !s.is_locked

/-- Embeds validate_ticket_numbers of three_lotto.rs: each of the 3 numbers in
[MIN_NUMBER, MAX_NUMBER], with no distinctness requirement. -/
def validate_ticket_numbers (numbers : List Nat) : Bool :=
  numbers.all (fun n => MIN_NUMBER ≤ n && n ≤ MAX_NUMBER)

/-- Embeds instruction buy_ticket of three_lotto.rs: the draw-window rejection
comes first, then the mint check, then the auto-unlock branch (strict
comparison with LOCK_DURATION), then minimum amount and ticket validation; the
incoming token transfer is external and modelled as succeeding. -/
def buy_ticket (s : LotteryState) (now : Int) (numbers : List Nat) (amount : Nat)
    (lottery_token_mint buyer_token_mint : Nat) : Except LotteryError3 LotteryState :=
  if s.is_in_draw_window now then .error .DrawWindowActive
  else if ¬ (lottery_token_mint = s.token_mint ∧ buyer_token_mint = s.token_mint) then
    .error .InvalidTokenMint
  else
    match (if s.is_locked then
            if now - s.last_draw_time > LOCK_DURATION then
              some { s with is_locked := false }
            else none
          else some s) with
    | none => .error .Locked
    | some s1 =>
      if amount < s1.min_purchase_amount then .error .InsufficientAmount
      else if ¬ validate_ticket_numbers numbers then .error .InvalidTicketNumbers
      else .ok s1

/-- Embeds convert_random_to_3d_numbers of three_lotto.rs. -/
def convert_random_to_3d_numbers (digest : Nat → Nat) : List Nat :=
  [digest 0 % MAX_NUMBER + 1, digest 1 % MAX_NUMBER + 1, digest 2 % MAX_NUMBER + 1]

/-- Embeds instruction draw of three_lotto.rs; the digest argument stands for
the generate_vrf_random_number output. -/
def draw3 (s : LotteryState) (now : Int) (digest : Nat → Nat) :
    Except LotteryError3 LotteryState :=
  if ¬ s.is_in_draw_window now then .error .InvalidDrawTime
  else if ¬ s.can_draw now then .error .DrawTooEarly
  else if s.is_locked then .error .AlreadyDrawn
  else
    .ok { s with last_draw_time := now, is_locked := true,
                 last_draw_numbers := convert_random_to_3d_numbers digest }

/-- Embeds instruction update_prize_amount of three_lotto.rs. The source adds
with an unchecked u64 +=, embedded as wrapping modulo 2 ^ 64 (release-build
semantics); note the contrast with the checked arithmetic used elsewhere. -/
def update_prize_amount3 (s : LotteryState) (now : Int) (prize_amount : Nat) :
    Except LotteryError3 LotteryState :=
  if ¬ (s.is_locked ∧ now - s.last_draw_time ≤ LOCK_DURATION) then
    .error .PrizeUpdateWindowClosed
  else if ¬ 0 < prize_amount then .error .InvalidPrizeAmount
  else .ok { s with last_prize_amount := (s.last_prize_amount + prize_amount) % 2 ^ 64 }

/-- Embeds instruction transfer_token of three_lotto.rs, shaped exactly like
the weekly variant: no comparison of total_amount with the sum of the entry
amounts; the second component of a successful result is the list of executed
transfers. -/
def transfer_token3 (s : LotteryState) (transfers : List TransferInfo)
    (remaining_accounts : Nat) (total_amount : Nat) :
    Except LotteryError3 (LotteryState × List TransferInfo) :=
  if ¬ 0 < total_amount then .error .InsufficientPrizeAmount
  else if ¬ total_amount ≤ s.last_prize_amount then .error .InsufficientPrizeAmount
  else if remaining_accounts < transfers.length then .error .InvalidTokenMint
  else
    match checkedSub s.last_prize_amount total_amount with
    | none => .error .ArithmeticError
    | some r => .ok ({ s with last_prize_amount := r }, transfers)

end ThreeLotto

/-- A locked weekly-variant state that last drew at time 0, with minimum
purchase 1 and mint identifier 0. -/
def lockedWeekly : SuperLotto.LotteryState :=
  { token_mint := 0, last_draw_time := 0, is_locked := true, min_purchase_amount := 1,
    last_draw_numbers := [0, 0, 0, 0, 0, 0, 0], last_prize_amount := 0 }

/-- The locked weekly-variant state with recorded prize liability 10. -/
def weeklyPrize10 : SuperLotto.LotteryState :=
  { lockedWeekly with last_prize_amount := 10 }

/-- The locked weekly-variant state with the prize liability at the u64 maximum. -/
def weeklyPrizeMax : SuperLotto.LotteryState :=
  { lockedWeekly with last_prize_amount := 2 ^ 64 - 1 }

/-- A locked 3D-variant state that last drew at time 0, with minimum purchase 1
and mint identifier 0. -/
def lockedThree : ThreeLotto.LotteryState :=
  { token_mint := 0, last_draw_time := 0, is_locked := true, min_purchase_amount := 1,
    last_draw_numbers := [0, 0, 0], last_prize_amount := 0 }

/-- The locked 3D-variant state with recorded prize liability 10. -/
def threePrize10 : ThreeLotto.LotteryState :=
  { lockedThree with last_prize_amount := 10 }

/-- The locked 3D-variant state with the prize liability at the u64 maximum. -/
def threePrizeMax : ThreeLotto.LotteryState :=
  { lockedThree with last_prize_amount := 2 ^ 64 - 1 }

/-!
Theorems. The helper lemmas establish the shapes of successful operations;
the claim theorems follow them.
-/

/-- The prize computation of play in closed form: defined exactly when the two
checked multiplications fit in u64, in which case it is the floor of
bet * multiplier * 101 / 100. -/
lemma total_prize_spec (a m : Nat) :
    InstantLotto.total_prize a m =
      if a * m < 2 ^ 64 ∧ a * m * 101 < 2 ^ 64 then some (a * m * 101 / 100) else none := by
  simp only [InstantLotto.total_prize, checkedMul, checkedDiv]
  split_ifs <;> simp_all
  · split_ifs with h3
    · exact absurd h3 (by omega)
    · rfl
  · omega

/-- A successful play credits the pool by the bet, the prize liability by the
computed prize of a winning play, and the play counter by one. -/
lemma play_ok_shape {s : InstantLotto.Lottery} {a : Nat} {d : Nat → Nat}
    {s' : InstantLotto.Lottery} (h : InstantLotto.play s a d = .ok s') :
    s'.pool_amount = s.pool_amount + a
    ∧ s'.prize_amount = s.prize_amount
        + (if 0 < InstantLotto.win_multiplier s d
           then a * InstantLotto.win_multiplier s d * 101 / 100 else 0)
    ∧ s'.play_times = s.play_times + 1 := by
  simp only [InstantLotto.play, checkedAdd] at h
  rw [total_prize_spec] at h
  split_ifs at h <;> simp_all
  · split_ifs at h
    simp_all
    subst h
    simp
  · subst h
    simp

/-- A successful claim_prize debits both ledger counters by the same total,
which the guard bounds by the recorded prize liability. -/
lemma claim_prize_ok_shape {s : InstantLotto.Lottery} {p f : Nat} {now ts : Int}
    {s' : InstantLotto.Lottery} (h : InstantLotto.claim_prize s p f now ts = .ok s') :
    s'.pool_amount = s.pool_amount - p - f
    ∧ s'.prize_amount = s.prize_amount - p - f
    ∧ p + f ≤ s.prize_amount := by
  simp only [InstantLotto.claim_prize, checkedAdd, checkedSub] at h
  split_ifs at h <;> try simp_all
  all_goals try (split_ifs at h <;> try simp_all)
  all_goals (subst h; simp)

/-- set_locked never touches the two ledger counters. -/
lemma set_locked_preserves_ledger (s : InstantLotto.Lottery) (l : Option Bool)
    (tw : Option Nat) (wr : Option (List Nat)) (mu : Option (List Nat)) :
    (InstantLotto.set_locked s l tw wr mu).pool_amount = s.pool_amount
    ∧ (InstantLotto.set_locked s l tw wr mu).prize_amount = s.prize_amount := by
  cases l <;> cases tw <;> cases wr <;> cases mu <;> simp [InstantLotto.set_locked]

/-- The get_number scan yields the fallback 5 whenever the value is at or above
every boundary. -/
lemma getNumberFrom_all_le (random : Nat) :
    ∀ (l : List Nat) (i : Nat), (∀ r ∈ l, r ≤ random) →
      InstantLotto.getNumberFrom random i l = 5
  | [], _, _ => rfl
  | r :: rest, i, h => by
    have hr : r ≤ random := h r (by simp)
    simp only [InstantLotto.getNumberFrom, if_neg (Nat.not_lt.mpr hr)]
    exact getNumberFrom_all_le random rest (i + 1) (fun x hx => h x (by simp [hx]))

/-- Claim C1 counterexample: from a freshly initialized instance with
minimum bet 1, the single winning play of bet 100 under the all-zero digest is
a reachable operation sequence after which prize_amount is 202 while
pool_amount is 100, so the claimed invariant fails. -/
theorem instant_invariant_counterexample :
    InstantLotto.play (InstantLotto.initLottery 1) 100 zeroDigest =
      .ok { min_bet := 1, locked := false, total_weight := 10000,
            weight_ranges := [4660, 7627, 8858, 9578, 10000],
            multipliers := [2, 5, 10, 50, 100],
            pool_amount := 100, play_times := 1, prize_amount := 202 }
    ∧ ¬ InstantLotto.PrizeInvariant
        { min_bet := 1, locked := false, total_weight := 10000,
          weight_ranges := [4660, 7627, 8858, 9578, 10000],
          multipliers := [2, 5, 10, 50, 100],
          pool_amount := 100, play_times := 1, prize_amount := 202 } := by
  constructor
  · rfl
  · intro h
    simp [InstantLotto.PrizeInvariant] at h

/-- Claim C1 amended: initialize establishes prize_amount <= pool_amount, and
set_locked, claim_prize and every losing play preserve it; a winning play
instead credits pool_amount by the bet but prize_amount by
bet * multiplier * 101 / 100, which can break the invariant (as the
counterexample shows), so the invariant does not hold across winning plays. -/
theorem instant_invariant_amended :
    (∀ mb, InstantLotto.PrizeInvariant (InstantLotto.initLottery mb))
    ∧ (∀ s l tw wr mu, InstantLotto.PrizeInvariant s →
        InstantLotto.PrizeInvariant (InstantLotto.set_locked s l tw wr mu))
    ∧ (∀ s p f now ts s', InstantLotto.PrizeInvariant s →
        InstantLotto.claim_prize s p f now ts = .ok s' → InstantLotto.PrizeInvariant s')
    ∧ (∀ s a d s', InstantLotto.PrizeInvariant s →
        InstantLotto.win_multiplier s d = 0 →
        InstantLotto.play s a d = .ok s' → InstantLotto.PrizeInvariant s')
    ∧ (∀ s a d s', 0 < InstantLotto.win_multiplier s d →
        InstantLotto.play s a d = .ok s' →
        s'.pool_amount = s.pool_amount + a
        ∧ s'.prize_amount = s.prize_amount
            + a * InstantLotto.win_multiplier s d * 101 / 100) := by
  refine ⟨?_, ?_, ?_, ?_, ?_⟩
  · intro mb
    simp [InstantLotto.PrizeInvariant, InstantLotto.initLottery]
  · intro s l tw wr mu h
    have := set_locked_preserves_ledger s l tw wr mu
    unfold InstantLotto.PrizeInvariant at *
    omega
  · intro s p f now ts s' h hok
    have := claim_prize_ok_shape hok
    unfold InstantLotto.PrizeInvariant at *
    omega
  · intro s a d s' h hm hok
    have := play_ok_shape hok
    rw [hm] at this
    simp at this
    unfold InstantLotto.PrizeInvariant at *
    omega
  · intro s a d s' hm hok
    have := play_ok_shape hok
    rw [if_pos hm] at this
    exact ⟨this.1, this.2.1⟩

/-- Claim C1 amended witness: a concrete losing play (digest tiers 1 and 2
differ) from the fresh instance lands in a state satisfying the invariant. -/
theorem instant_invariant_amended_witness :
    InstantLotto.PrizeInvariant
      { min_bet := 1, locked := false, total_weight := 10000,
        weight_ranges := [4660, 7627, 8858, 9578, 10000],
        multipliers := [2, 5, 10, 50, 100],
        pool_amount := 100, play_times := 1, prize_amount := 0 } :=
  instant_invariant_amended.2.2.2.1 (InstantLotto.initLottery 1) 100 loseDigest _
    (by simp [InstantLotto.PrizeInvariant, InstantLotto.initLottery]) (by decide) rfl

/-- Claim C3. -/
theorem instant_tier_mapping :
    InstantLotto.get_number 0 [4660, 7627, 8858, 9578, 10000] = 1
    ∧ InstantLotto.get_number 9999 [4660, 7627, 8858, 9578, 10000] = 5
    ∧ InstantLotto.get_number 4660 [4660, 7627, 8858, 9578, 10000] = 2
    ∧ (∀ s digest i, InstantLotto.tierNumber s digest i =
        InstantLotto.get_number (InstantLotto.u64SliceLE digest i % s.total_weight)
          s.weight_ranges)
    ∧ (∀ s digest,
        (InstantLotto.tierNumber s digest 0 = InstantLotto.tierNumber s digest 1
            ∧ InstantLotto.tierNumber s digest 0 = InstantLotto.tierNumber s digest 2
            ∧ InstantLotto.tierNumber s digest 1 = InstantLotto.tierNumber s digest 2 →
          InstantLotto.win_multiplier s digest =
            s.multipliers.getD (InstantLotto.tierNumber s digest 0 - 1) 0)
        ∧ (¬ (InstantLotto.tierNumber s digest 0 = InstantLotto.tierNumber s digest 1
            ∧ InstantLotto.tierNumber s digest 0 = InstantLotto.tierNumber s digest 2
            ∧ InstantLotto.tierNumber s digest 1 = InstantLotto.tierNumber s digest 2) →
          InstantLotto.win_multiplier s digest = 0)) := by
  refine ⟨by decide, by decide, by decide, fun s digest i => rfl, fun s digest => ⟨?_, ?_⟩⟩
  · intro h
    unfold InstantLotto.win_multiplier
    rw [if_pos ⟨h.1, h.2.2⟩]
  · intro h
    unfold InstantLotto.win_multiplier
    rw [if_neg]
    intro hc
    exact h ⟨hc.1, hc.1.trans hc.2, hc.2⟩

/-- Claim C3 witness. -/
theorem instant_tier_mapping_witness :
    InstantLotto.win_multiplier (InstantLotto.initLottery 1) zeroDigest = 2 := by
  have h := (instant_tier_mapping.2.2.2.2 (InstantLotto.initLottery 1) zeroDigest).1
    (by refine ⟨?_, ?_, ?_⟩ <;> decide)
  rw [h]
  decide

/-- Claim C4. -/
theorem instant_prize_formula :
    (∀ bet mult : Nat, InstantLotto.total_prize bet mult =
        if bet * mult < 2 ^ 64 ∧ bet * mult * 101 < 2 ^ 64
        then some (bet * mult * 101 / 100) else none)
    ∧ InstantLotto.total_prize 100 5 = some 505
    ∧ (∀ s amount digest, s.locked = false → s.min_bet ≤ amount →
        s.pool_amount + amount < 2 ^ 64 → s.play_times + 1 < 2 ^ 64 →
        0 < InstantLotto.win_multiplier s digest →
        2 ^ 64 ≤ amount * InstantLotto.win_multiplier s digest * 101 →
        InstantLotto.play s amount digest = .error .ArithmeticOverflow) := by
  refine ⟨total_prize_spec, by decide, ?_⟩
  intro s amount digest hl hmin hpool hpt hwin hov
  have hcond : ¬ (amount * InstantLotto.win_multiplier s digest < 2 ^ 64
      ∧ amount * InstantLotto.win_multiplier s digest * 101 < 2 ^ 64) := by omega
  simp [InstantLotto.play, checkedAdd, total_prize_spec, hl, hpool, hpt, hwin, hcond,
    Nat.not_lt.mpr hmin]
  split_ifs <;> simp_all

/-- Claim C4 witness. -/
theorem instant_prize_formula_witness :
    InstantLotto.play (InstantLotto.initLottery 1) (2 ^ 62) zeroDigest
      = .error .ArithmeticOverflow :=
  instant_prize_formula.2.2 (InstantLotto.initLottery 1) (2 ^ 62) zeroDigest rfl
    (by decide) (by decide) (by decide) (by decide) (by decide)

/-- Claim C10. -/
theorem instant_tier_fallback :
    (∀ random ranges, (∀ r ∈ ranges, r ≤ random) →
        InstantLotto.get_number random ranges = 5)
    ∧ (InstantLotto.set_locked (InstantLotto.initLottery 1) none (some 20000) none
        none).total_weight = 20000
    ∧ (InstantLotto.set_locked (InstantLotto.initLottery 1) none (some 20000) none
        none).weight_ranges = [4660, 7627, 8858, 9578, 10000]
    ∧ InstantLotto.get_number 15000 [4660, 7627, 8858, 9578, 10000] = 5 := by
  exact ⟨fun random ranges h => getNumberFrom_all_le random ranges 0 h, rfl, rfl, by decide⟩

/-- Claim C10 witness. -/
theorem instant_tier_fallback_witness :
    InstantLotto.get_number 10000 [4660, 7627, 8858, 9578, 10000] = 5 :=
  instant_tier_fallback.1 10000 [4660, 7627, 8858, 9578, 10000] (by decide)

/-- The collision step always lands in [1,33]. -/
lemma step33_le (v : Nat) : 1 ≤ SuperLotto.step33 v ∧ SuperLotto.step33 v ≤ 33 := by
  unfold SuperLotto.step33
  have := Nat.mod_lt v (show 0 < 33 by norm_num)
  omega

/-- Iterating the collision step rotates through [1,33]. -/
lemma step33_iterate (k : Nat) : ∀ v, 1 ≤ v → v ≤ 33 →
    SuperLotto.step33^[k] v = (v - 1 + k) % 33 + 1 := by
  induction k with
  | zero =>
    intro v h1 h2
    simp only [Function.iterate_zero_apply]
    rw [Nat.mod_eq_of_lt (by omega)]
    omega
  | succ k ih =>
    intro v h1 h2
    rw [Function.iterate_succ_apply]
    have hs := step33_le v
    rw [ih (SuperLotto.step33 v) hs.1 hs.2]
    unfold SuperLotto.step33
    omega

/-- Fewer than 33 taken values leave a free value on the 33-cycle. -/
lemma step33_exists_free (used : List Nat) (hlen : used.length < 33) (v : Nat)
    (h1 : 1 ≤ v) (h2 : v ≤ 33) : ∃ k < 33, SuperLotto.step33^[k] v ∉ used := by
  by_contra hall
  push_neg at hall
  have hcard : (Finset.range 33).card ≤ used.toFinset.card := by
    apply Finset.card_le_card_of_injOn (fun k => SuperLotto.step33^[k] v)
    · intro k hk
      rw [List.mem_toFinset]
      exact hall k (Finset.mem_range.mp hk)
    · intro k1 hk1 k2 hk2 heq
      simp only [Finset.coe_range, Set.mem_Iio] at hk1 hk2
      change SuperLotto.step33^[k1] v = SuperLotto.step33^[k2] v at heq
      rw [step33_iterate k1 v h1 h2, step33_iterate k2 v h1 h2] at heq
      omega
  have hle := used.toFinset_card_le
  simp only [Finset.card_range] at hcard
  omega

/-- With enough fuel to reach a free value, the collision loop returns a value
not among the taken ones. -/
lemma findFree_not_mem : ∀ (fuel : Nat) (used : List Nat) (v : Nat),
    (∃ k < fuel, SuperLotto.step33^[k] v ∉ used) →
    SuperLotto.findFree fuel used v ∉ used
  | 0, _, _, h => by
    obtain ⟨k, hk, _⟩ := h
    omega
  | fuel + 1, used, v, h => by
    unfold SuperLotto.findFree
    split_ifs with hv
    · obtain ⟨k, hk, hnot⟩ := h
      cases k with
      | zero =>
        simp only [Function.iterate_zero_apply] at hnot
        exact absurd hv hnot
      | succ k =>
        exact findFree_not_mem fuel used (SuperLotto.step33 v)
          ⟨k, by omega, by rwa [Function.iterate_succ_apply] at hnot⟩
    · exact hv

/-- The collision loop stays inside [1,33]. -/
lemma findFree_range : ∀ (fuel : Nat) (used : List Nat) (v : Nat),
    1 ≤ v → v ≤ 33 →
    1 ≤ SuperLotto.findFree fuel used v ∧ SuperLotto.findFree fuel used v ≤ 33
  | 0, _, _, h1, h2 => ⟨h1, h2⟩
  | fuel + 1, used, v, h1, h2 => by
    unfold SuperLotto.findFree
    split_ifs with hv
    · exact findFree_range fuel used (SuperLotto.step33 v) (step33_le v).1 (step33_le v).2
    · exact ⟨h1, h2⟩

/-- Each red slot adds exactly one number. -/
lemma redNumbers_length (digest : Nat → Nat) :
    ∀ i, (SuperLotto.redNumbers digest i).length = i
  | 0 => rfl
  | i + 1 => by
    simp only [SuperLotto.redNumbers, List.length_append, List.length_singleton,
      redNumbers_length digest i]

/-- The first i red numbers are pairwise distinct and lie in [1,33]. -/
lemma redNumbers_spec (digest : Nat → Nat) : ∀ i, i ≤ 33 →
    (SuperLotto.redNumbers digest i).Nodup
    ∧ ∀ x ∈ SuperLotto.redNumbers digest i, 1 ≤ x ∧ x ≤ 33
  | 0, _ => ⟨List.nodup_nil, by simp [SuperLotto.redNumbers]⟩
  | i + 1, hi => by
    have prev := redNumbers_spec digest i (by omega)
    have hlen : (SuperLotto.redNumbers digest i).length < 33 := by
      rw [redNumbers_length digest i]
      omega
    have hinit1 : 1 ≤ digest i % 33 + 1 := by omega
    have hinit2 : digest i % 33 + 1 ≤ 33 := by
      have := Nat.mod_lt (digest i) (show 0 < 33 by norm_num)
      omega
    have hfree := findFree_not_mem 33 (SuperLotto.redNumbers digest i) (digest i % 33 + 1)
      (step33_exists_free (SuperLotto.redNumbers digest i) hlen _ hinit1 hinit2)
    have hrange := findFree_range 33 (SuperLotto.redNumbers digest i) (digest i % 33 + 1)
      hinit1 hinit2
    simp only [SuperLotto.redNumbers]
    constructor
    · rw [List.nodup_append]
      refine ⟨prev.1, List.nodup_singleton _, ?_⟩
      intro a ha hb
      simp only [List.mem_singleton] at hb
      subst hb
      exact hfree ha
    · intro x hx
      rcases List.mem_append.mp hx with hx | hx
      · exact prev.2 x hx
      · simp only [List.mem_singleton] at hx
        subst hx
        exact hrange

/-- Claim C5. -/
theorem draw_numbers_ranges (digest : Nat → Nat) :
    (SuperLotto.convert_random_to_numbers digest).length = 7
    ∧ ((SuperLotto.convert_random_to_numbers digest).take 6).Nodup
    ∧ (∀ x ∈ (SuperLotto.convert_random_to_numbers digest).take 6, 1 ≤ x ∧ x ≤ 33)
    ∧ (∀ x ∈ (SuperLotto.convert_random_to_numbers digest).drop 6, 1 ≤ x ∧ x ≤ 16)
    ∧ (∀ x ∈ ThreeLotto.convert_random_to_3d_numbers digest, 1 ≤ x ∧ x ≤ 33) := by
  have hspec := redNumbers_spec digest 6 (by norm_num)
  have hlen := redNumbers_length digest 6
  have htakegen : ∀ (l1 l2 : List Nat), l1.length = 6 → (l1 ++ l2).take 6 = l1 := by
    intro l1 l2 h
    rw [← h]
    exact List.take_left l1 l2
  have hdropgen : ∀ (l1 l2 : List Nat), l1.length = 6 → (l1 ++ l2).drop 6 = l2 := by
    intro l1 l2 h
    rw [← h]
    exact List.drop_left l1 l2
  have htake : (SuperLotto.convert_random_to_numbers digest).take 6
      = SuperLotto.redNumbers digest 6 :=
    htakegen (SuperLotto.redNumbers digest 6) [digest 6 % 16 + 1] hlen
  have hdrop : (SuperLotto.convert_random_to_numbers digest).drop 6
      = [digest 6 % 16 + 1] :=
    hdropgen (SuperLotto.redNumbers digest 6) [digest 6 % 16 + 1] hlen
  refine ⟨?_, ?_, ?_, ?_, ?_⟩
  · unfold SuperLotto.convert_random_to_numbers
    simp [hlen]
  · rw [htake]
    exact hspec.1
  · rw [htake]
    exact hspec.2
  · rw [hdrop]
    intro x hx
    simp only [List.mem_singleton] at hx
    subst hx
    have := Nat.mod_lt (digest 6) (show 0 < 16 by norm_num)
    omega
  · intro x hx
    have h0 := Nat.mod_lt (digest 0) (show 0 < 33 by norm_num)
    have h1 := Nat.mod_lt (digest 1) (show 0 < 33 by norm_num)
    have h2 := Nat.mod_lt (digest 2) (show 0 < 33 by norm_num)
    simp only [ThreeLotto.convert_random_to_3d_numbers, ThreeLotto.MAX_NUMBER,
      List.mem_cons, List.mem_singleton, List.not_mem_nil, or_false] at hx
    rcases hx with h | h | h <;> omega

/-- Claim C5 witness: under the all-zero digest the weekly numbers are
[1,2,3,4,5,6] with blue number 1, all inside the claimed ranges. -/
theorem draw_numbers_ranges_witness :
    ((SuperLotto.convert_random_to_numbers zeroDigest).take 6).Nodup
    ∧ 1 ≤ (1 : Nat) ∧ (1 : Nat) ≤ 33 :=
  ⟨(draw_numbers_ranges zeroDigest).2.1,
   ((draw_numbers_ranges zeroDigest).2.2.1 1 (by decide)).1,
   ((draw_numbers_ranges zeroDigest).2.2.1 1 (by decide)).2⟩

/-- Claim C6. -/
theorem weekly_draw_window :
    (∀ s digest now, SuperLotto.seconds_from_day_start now = 601 →
        SuperLotto.draw s now digest = .error .InvalidDrawTime)
    ∧ (∀ s digest now, s.is_locked = false →
        (SuperLotto.seconds_from_day_start now = 0
          ∨ SuperLotto.seconds_from_day_start now = 600) →
        SuperLotto.draw s now digest =
          .ok { s with last_draw_time := now, is_locked := true,
                       last_draw_numbers := SuperLotto.convert_random_to_numbers digest })
    ∧ (∀ s digest now,
        (SuperLotto.seconds_from_day_start now = 0
          ∨ SuperLotto.seconds_from_day_start now = 600) →
        SuperLotto.draw s now digest ≠ .error .InvalidDrawTime) := by
  refine ⟨?_, ?_, ?_⟩
  · intro s digest now h
    have hc : ¬ (SuperLotto.DRAW_START_TIME ≤ SuperLotto.seconds_from_day_start now
        ∧ SuperLotto.seconds_from_day_start now ≤ SuperLotto.DRAW_END_TIME) := by
      rw [h]
      unfold SuperLotto.DRAW_START_TIME SuperLotto.DRAW_END_TIME
      omega
    unfold SuperLotto.draw
    rw [if_pos hc]
  · intro s digest now hl h
    have hc : SuperLotto.DRAW_START_TIME ≤ SuperLotto.seconds_from_day_start now
        ∧ SuperLotto.seconds_from_day_start now ≤ SuperLotto.DRAW_END_TIME := by
      unfold SuperLotto.DRAW_START_TIME SuperLotto.DRAW_END_TIME
      rcases h with h | h <;> rw [h] <;> omega
    unfold SuperLotto.draw
    rw [if_neg (not_not_intro hc), if_neg (by simp [hl])]
  · intro s digest now h
    have hc : SuperLotto.DRAW_START_TIME ≤ SuperLotto.seconds_from_day_start now
        ∧ SuperLotto.seconds_from_day_start now ≤ SuperLotto.DRAW_END_TIME := by
      unfold SuperLotto.DRAW_START_TIME SuperLotto.DRAW_END_TIME
      rcases h with h | h <;> rw [h] <;> omega
    unfold SuperLotto.draw
    rw [if_neg (not_not_intro hc)]
    by_cases hl : s.is_locked
    · rw [if_pos hl]
      intro hcontra
      simp at hcontra
    · rw [if_neg hl]
      intro hcontra
      simp at hcontra

/-- Claim C6 witness. -/
theorem weekly_draw_window_witness :
    SuperLotto.draw (SuperLotto.initState 1 0) 601 zeroDigest = .error .InvalidDrawTime
    ∧ SuperLotto.draw (SuperLotto.initState 1 0) 600 zeroDigest =
        .ok { (SuperLotto.initState 1 0) with
                last_draw_time := 600,
                is_locked := true,
                last_draw_numbers := SuperLotto.convert_random_to_numbers zeroDigest } :=
  ⟨weekly_draw_window.1 (SuperLotto.initState 1 0) zeroDigest 601 (by decide),
   weekly_draw_window.2.1 (SuperLotto.initState 1 0) zeroDigest 600 rfl (Or.inr (by decide))⟩

/-- Claim C7 (code bug). -/
theorem update_prize_unchecked_add :
    weeklyPrizeMax.last_prize_amount = 2 ^ 64 - 1
    ∧ SuperLotto.update_prize_amount weeklyPrizeMax 100 1
      = .ok { weeklyPrizeMax with last_prize_amount := 0 }
    ∧ threePrizeMax.last_prize_amount = 2 ^ 64 - 1
    ∧ ThreeLotto.update_prize_amount3 threePrizeMax 100 1
      = .ok { threePrizeMax with last_prize_amount := 0 } :=
  ⟨rfl, rfl, rfl, rfl⟩

/-- Claim C2 (code bug). -/
theorem batched_transfer_no_sum_check :
    SuperLotto.transfer_token weeklyPrize10 [{ recipient := 7, amount := 5 }] 1 10
      = .ok ({ weeklyPrize10 with last_prize_amount := 0 },
             [{ recipient := 7, amount := 5 }])
    ∧ (List.map SuperLotto.TransferInfo.amount [{ recipient := 7, amount := 5 }]).sum = 5
    ∧ ThreeLotto.transfer_token3 threePrize10 [{ recipient := 7, amount := 5 }] 1 10
      = .ok ({ threePrize10 with last_prize_amount := 0 },
             [{ recipient := 7, amount := 5 }])
    ∧ (List.map ThreeLotto.TransferInfo.amount [{ recipient := 7, amount := 5 }]).sum = 5
    ∧ (5 : Nat) ≠ 10 :=
  ⟨rfl, rfl, rfl, rfl, by decide⟩

/-- Claim C8 counterexample. -/
theorem weekly_unlock_counterexample :
    lockedWeekly.is_locked = true
    ∧ SuperLotto.buy_ticket lockedWeekly 600 [1, 2, 3, 4, 5, 6, 7] 5 0 0
      = .error .LotteryLocked :=
  ⟨rfl, rfl⟩

/-- Claim C8 amended. -/
theorem weekly_unlock_amended :
    ∀ s now numbers amount m1 m2, s.is_locked = true →
      m1 = s.token_mint → m2 = s.token_mint →
      ((now - s.last_draw_time ≤ SuperLotto.LOCK_DURATION →
          SuperLotto.buy_ticket s now numbers amount m1 m2 = .error .LotteryLocked)
       ∧ (SuperLotto.LOCK_DURATION < now - s.last_draw_time →
          s.min_purchase_amount ≤ amount →
          SuperLotto.validate_ticket_numbers numbers = true →
          SuperLotto.buy_ticket s now numbers amount m1 m2
            = .ok { s with is_locked := false })) := by
  intro s now numbers amount m1 m2 hlock hm1 hm2
  constructor
  · intro hle
    simp only [SuperLotto.LOCK_DURATION] at hle
    simp [SuperLotto.buy_ticket, hm1, hm2, hlock, SuperLotto.LOCK_DURATION,
      Int.not_lt.mpr hle]
  · intro hgt hamt hvalid
    simp only [SuperLotto.LOCK_DURATION] at hgt
    simp [SuperLotto.buy_ticket, hm1, hm2, hlock, SuperLotto.LOCK_DURATION, hgt, hvalid,
      Nat.not_lt.mpr hamt]

/-- Claim C8 amended witness. -/
theorem weekly_unlock_amended_witness :
    SuperLotto.buy_ticket lockedWeekly 601 [1, 2, 3, 4, 5, 6, 7] 5 0 0
      = .ok { lockedWeekly with is_locked := false } :=
  (weekly_unlock_amended lockedWeekly 601 [1, 2, 3, 4, 5, 6, 7] 5 0 0 rfl rfl rfl).2
    (by decide) (by decide) (by decide)

/-- Claim C9 counterexample. -/
theorem threed_unlock_counterexample :
    lockedThree.is_locked = true
    ∧ ThreeLotto.buy_ticket lockedThree 360 [1, 1, 1] 5 0 0
      = .ok { lockedThree with is_locked := false } :=
  ⟨rfl, rfl⟩

/-- Claim C9 amended. -/
theorem threed_buy_window_amended :
    ∀ s now numbers amount m1 m2,
      (s.is_in_draw_window now = true →
        ThreeLotto.buy_ticket s now numbers amount m1 m2 = .error .DrawWindowActive)
      ∧ (s.is_in_draw_window now = false → s.is_locked = true →
        ThreeLotto.LOCK_DURATION < now - s.last_draw_time →
        m1 = s.token_mint → m2 = s.token_mint →
        s.min_purchase_amount ≤ amount →
        ThreeLotto.validate_ticket_numbers numbers = true →
        ThreeLotto.buy_ticket s now numbers amount m1 m2
          = .ok { s with is_locked := false }) := by
  intro s now numbers amount m1 m2
  constructor
  · intro hw
    simp [ThreeLotto.buy_ticket, hw]
  · intro hw hlock hgt hm1 hm2 hamt hvalid
    simp only [ThreeLotto.LOCK_DURATION, ThreeLotto.SECONDS_PER_MINUTE] at hgt
    have hgt' : (300 : Int) < now - s.last_draw_time := by omega
    simp [ThreeLotto.buy_ticket, hw, hlock, hm1, hm2, hgt', hvalid, Nat.not_lt.mpr hamt,
      ThreeLotto.LOCK_DURATION, ThreeLotto.SECONDS_PER_MINUTE]

/-- Claim C9 amended witness. -/
theorem threed_buy_window_amended_witness :
    ThreeLotto.buy_ticket lockedThree 120 [1, 1, 1] 5 0 0 = .error .DrawWindowActive :=
  (threed_buy_window_amended lockedThree 120 [1, 1, 1] 5 0 0).1 (by decide)
